import Mathlib

/-!
Shallow embedding of the `sre-agent` backend (`src/backend/app`): the agent
tool registry and dispatch of `services/ai_agent.py`, the conversation-context
builder and usage accounting of `SREAgent.chat`, the proactive analysis
`SREAgent.analyze_pod_issues`, the cluster client surface of
`services/k8s_client.py`, and the result formatting of
`DocumentService.search_documents` in `services/document_service.py`.

Conventions: Python values crossing a boundary are modelled by the JSON-like
`Value`; a Python dict is an insertion-ordered association list; a raised
exception is `Except.error` carrying the exception message; an `await`ed
collaborator call is an explicit function parameter, so theorems quantify over
every behaviour of the collaborator.
-/

/-- A JSON-like Python value, as the services pass dicts and lists around. -/
inductive Value where
  | str : String → Value
  | num : Int → Value
  | bool : Bool → Value
  | null : Value
  | arr : List Value → Value
  | dict : List (String × Value) → Value

/-- A Python dict with string keys, as an insertion-ordered association list. -/
abbrev Payload := List (String × Value)

/-- `needle.isPrefixOf hay` over character lists. -/
def startsWithChars : List Char → List Char → Bool
  | [], _ => true
  | _ :: _, [] => false
  | a :: as, b :: bs => a == b && startsWithChars as bs

/-- Occurrence of `needle` anywhere in `hay`. -/
def containsChars (hay needle : List Char) : Bool :=
  startsWithChars needle hay ||
    match hay with
    | [] => false
    | _ :: t => containsChars t needle

/-- Python's `sub in s` on strings: substring containment. -/
def strContains (s sub : String) : Bool :=
  containsChars s.toList sub.toList

/-! ## The cluster client (`services/k8s_client.py`) -/

/-- The names of the methods defined in the class body of `K8sClient`
(`services/k8s_client.py` lines 10–418).  The class defines read methods only;
no `delete_*` method appears anywhere in the file. -/
def k8sClientMethods : List String :=
  ["__init__", "_initialize_client", "get_pods", "get_pod_logs",
   "get_deployments", "get_services", "get_events", "get_namespaces",
   "get_cluster_info", "_get_version"]

/-- The message of the `AttributeError` Python raises when an instance
attribute is looked up and the class does not define it. -/
def attributeError (name : String) : String :=
  "'K8sClient' object has no attribute '" ++ name ++ "'"

/-- Python attribute access `k8s_client.<name>(...)`: when the class defines
the method its body runs, otherwise the lookup raises `AttributeError` and the
body (and the cluster behind it) is never reached. -/
def k8sMethodCall (name : String) (body : Unit → Except String α) : Except String α :=
  if k8sClientMethods.contains name then body () else .error (attributeError name)

/-- One entry of the `conditions` list of the pod_info dict built by
`K8sClient.get_pods` (k8s_client.py lines 66–74). -/
structure PodCondition where
  type : String
  status : String
  reason : String
  message : String
deriving DecidableEq

/-- One entry of the `containers` list of the pod_info dict built by
`K8sClient.get_pods` (k8s_client.py lines 75–93). -/
structure ContainerInfo where
  name : String
  image : String
  ready : Bool
  restart_count : Int
deriving DecidableEq

/-- The pod_info dict built by `K8sClient.get_pods` for one pod
(k8s_client.py lines 62–96), typed by its fixed key set. -/
structure PodInfo where
  name : String
  «namespace» : String
  status : String
  conditions : List PodCondition
  containers : List ContainerInfo
  node : String
  created_at : String
deriving DecidableEq

def PodCondition.toValue (c : PodCondition) : Value :=
  .dict [("type", .str c.type), ("status", .str c.status),
         ("reason", .str c.reason), ("message", .str c.message)]

def ContainerInfo.toValue (c : ContainerInfo) : Value :=
  .dict [("name", .str c.name), ("image", .str c.image),
         ("ready", .bool c.ready), ("restart_count", .num c.restart_count)]

def PodInfo.toValue (p : PodInfo) : Value :=
  .dict [("name", .str p.name), ("namespace", .str p.«namespace»),
         ("status", .str p.status),
         ("conditions", .arr (p.conditions.map PodCondition.toValue)),
         ("containers", .arr (p.containers.map ContainerInfo.toValue)),
         ("node", .str p.node), ("created_at", .str p.created_at)]

/-- The `{"pods": ..., "count": ...}` dict `K8sClient.get_pods` returns
(k8s_client.py line 105). -/
structure PodsSnapshot where
  pods : List PodInfo
  count : Int
deriving DecidableEq

def PodsSnapshot.toPayload (s : PodsSnapshot) : Payload :=
  [("pods", .arr (s.pods.map PodInfo.toValue)), ("count", .num s.count)]

/-- The slice of the `kubernetes` python client surface the backend touches
(`client.CoreV1Api()` / `client.AppsV1Api()` operations).  The read operations
return the already field-mapped records the `K8sClient` read methods build,
since every claim depends only on that record shape; `Except.error` is a raised
`ApiException`.  The delete operations are what `K8sClient.delete_*` methods
would delegate to — whether `K8sClient` defines such methods is recorded in
`k8sClientMethods`, and `k8sMethodCall` guards every access. -/
structure ClusterApi where
  list_namespaced_pod : String → Option String → Except String (List PodInfo)
  read_namespaced_pod_log : String → String → Option String → Int → Except String String
  list_namespaced_deployment : String → Option String → Except String Payload
  list_namespaced_event : String → Option String → Int → Except String Payload
  delete_namespaced_pod : String → String → Option Int → Except String Payload
  delete_namespaced_deployment : String → String → Option Int → Except String Payload
  delete_namespaced_service : String → String → Except String Payload
  delete_namespaced_stateful_set : String → String → Option Int → Except String Payload
  delete_namespaced_daemon_set : String → String → Option Int → Except String Payload
  delete_namespaced_config_map : String → String → Except String Payload
  delete_namespaced_secret : String → String → Except String Payload

/-- `K8sClient.get_pods` (k8s_client.py lines 42–109): lists pods, builds the
pod_info records and wraps them as `{"pods": ..., "count": ...}`; an
`ApiException` is re-raised. -/
def K8sClient.get_pods (api : ClusterApi) («namespace» : String)
    (label_selector : Option String) : Except String PodsSnapshot :=
  k8sMethodCall "get_pods" fun _ =>
    match api.list_namespaced_pod «namespace» label_selector with
    | .error e => .error e
    | .ok pods => .ok ⟨pods, pods.length⟩

/-- `K8sClient.get_pod_logs` (k8s_client.py lines 111–152). -/
def K8sClient.get_pod_logs (api : ClusterApi) (pod_name «namespace» : String)
    (container : Option String) (tail_lines : Int) : Except String String :=
  k8sMethodCall "get_pod_logs" fun _ =>
    api.read_namespaced_pod_log pod_name «namespace» container tail_lines

/-- `K8sClient.get_deployments` (k8s_client.py lines 154–210); the per-field
mapping into the deployment dict is folded into the api result, no claim
touches its contents. -/
def K8sClient.get_deployments (api : ClusterApi) («namespace» : String)
    (label_selector : Option String) : Except String Payload :=
  k8sMethodCall "get_deployments" fun _ =>
    api.list_namespaced_deployment «namespace» label_selector

/-- `K8sClient.get_events` (k8s_client.py lines 264–328); the per-field
mapping and sort are folded into the api result, no claim touches them. -/
def K8sClient.get_events (api : ClusterApi) («namespace» : String)
    (field_selector : Option String) (limit : Int) : Except String Payload :=
  k8sMethodCall "get_events" fun _ =>
    api.list_namespaced_event «namespace» field_selector limit

/-- `k8s_client.delete_pod(...)` as the agent calls it (ai_agent.py line 304):
the class `K8sClient` defines no `delete_pod`, so the attribute lookup raises
`AttributeError` and the cluster operation is never invoked. -/
def K8sClient.delete_pod (api : ClusterApi) (pod_name «namespace» : String)
    (grace_period_seconds : Option Int) : Except String Payload :=
  k8sMethodCall "delete_pod" fun _ =>
    api.delete_namespaced_pod pod_name «namespace» grace_period_seconds

/-- `k8s_client.delete_deployment(...)` (called at ai_agent.py line 326); not
defined by the class. -/
def K8sClient.delete_deployment (api : ClusterApi) (deployment_name «namespace» : String)
    (grace_period_seconds : Option Int) : Except String Payload :=
  k8sMethodCall "delete_deployment" fun _ =>
    api.delete_namespaced_deployment deployment_name «namespace» grace_period_seconds

/-- `k8s_client.delete_service(...)` (called at ai_agent.py line 347); not
defined by the class. -/
def K8sClient.delete_service (api : ClusterApi) (service_name «namespace» : String) :
    Except String Payload :=
  k8sMethodCall "delete_service" fun _ =>
    api.delete_namespaced_service service_name «namespace»

/-- `k8s_client.delete_statefulset(...)` (called at ai_agent.py line 368); not
defined by the class. -/
def K8sClient.delete_statefulset (api : ClusterApi) (statefulset_name «namespace» : String)
    (grace_period_seconds : Option Int) : Except String Payload :=
  k8sMethodCall "delete_statefulset" fun _ =>
    api.delete_namespaced_stateful_set statefulset_name «namespace» grace_period_seconds

/-- `k8s_client.delete_daemonset(...)` (called at ai_agent.py line 390); not
defined by the class. -/
def K8sClient.delete_daemonset (api : ClusterApi) (daemonset_name «namespace» : String)
    (grace_period_seconds : Option Int) : Except String Payload :=
  k8sMethodCall "delete_daemonset" fun _ =>
    api.delete_namespaced_daemon_set daemonset_name «namespace» grace_period_seconds

/-- `k8s_client.delete_configmap(...)` (called at ai_agent.py line 411); not
defined by the class. -/
def K8sClient.delete_configmap (api : ClusterApi) (configmap_name «namespace» : String) :
    Except String Payload :=
  k8sMethodCall "delete_configmap" fun _ =>
    api.delete_namespaced_config_map configmap_name «namespace»

/-- `k8s_client.delete_secret(...)` (called at ai_agent.py line 431); not
defined by the class. -/
def K8sClient.delete_secret (api : ClusterApi) (secret_name «namespace» : String) :
    Except String Payload :=
  k8sMethodCall "delete_secret" fun _ =>
    api.delete_namespaced_secret secret_name «namespace»

/-! ## Dependencies and tool input schemas (`services/ai_agent.py`) -/

/-- The document-search collaborator as the tools see it: the outcome of
`document_service.search_documents(query=..., n_results=...)`, `Except.error`
when the call raised.  The result formatting inside the service is modelled
separately by `DocumentService.search_documents`. -/
structure DocumentServiceHandle where
  search_documents : String → Int → Except String (List Payload)

/-- `SREDependencies` (ai_agent.py lines 124–130).  A `K8sClient` instance is
represented by the `ClusterApi` it wraps; its methods are the `K8sClient.*`
functions above. -/
structure SREDependencies where
  k8s_client : ClusterApi
  document_service : DocumentServiceHandle
  default_namespace : String := "default"

/-- `GetPodsInput` (ai_agent.py lines 17–23). -/
structure GetPodsInput where
  «namespace» : String := "default"
  label_selector : Option String := none
deriving DecidableEq

/-- `GetPodLogsInput` (lines 26–34). -/
structure GetPodLogsInput where
  pod_name : String
  «namespace» : String := "default"
  container : Option String := none
  tail_lines : Int := 100
deriving DecidableEq

/-- `GetDeploymentsInput` (lines 37–43). -/
structure GetDeploymentsInput where
  «namespace» : String := "default"
  label_selector : Option String := none
deriving DecidableEq

/-- `GetEventsInput` (lines 46–53). -/
structure GetEventsInput where
  «namespace» : String := "default"
  field_selector : Option String := none
  limit : Int := 50
deriving DecidableEq

/-- `SearchRunbooksInput` (lines 56–60). -/
structure SearchRunbooksInput where
  query : String
  n_results : Int := 3
deriving DecidableEq

/-- `DeletePodInput` (lines 63–70). -/
structure DeletePodInput where
  pod_name : String
  «namespace» : String := "default"
  grace_period_seconds : Option Int := none
deriving DecidableEq

/-- `DeleteDeploymentInput` (lines 73–80). -/
structure DeleteDeploymentInput where
  deployment_name : String
  «namespace» : String := "default"
  grace_period_seconds : Option Int := none
deriving DecidableEq

/-- `DeleteServiceInput` (lines 83–87). -/
structure DeleteServiceInput where
  service_name : String
  «namespace» : String := "default"
deriving DecidableEq

/-- `DeleteStatefulSetInput` (lines 90–97). -/
structure DeleteStatefulSetInput where
  statefulset_name : String
  «namespace» : String := "default"
  grace_period_seconds : Option Int := none
deriving DecidableEq

/-- `DeleteDaemonSetInput` (lines 100–107). -/
structure DeleteDaemonSetInput where
  daemonset_name : String
  «namespace» : String := "default"
  grace_period_seconds : Option Int := none
deriving DecidableEq

/-- `DeleteConfigMapInput` (lines 110–114). -/
structure DeleteConfigMapInput where
  configmap_name : String
  «namespace» : String := "default"
deriving DecidableEq

/-- `DeleteSecretInput` (lines 117–121). -/
structure DeleteSecretInput where
  secret_name : String
  «namespace» : String := "default"
deriving DecidableEq

/-! ## The registered tools (`SREAgent._register_tools`, ai_agent.py 192–438)

Each tool body is `try: call the collaborator ... except Exception as e:` with
the exception converted to a structured payload; a tool therefore has type
`Payload` (never `Except`): no exception crosses the dispatch boundary. -/

/-- Tool `get_pods` (lines 195–212). -/
def get_pods (ctx : SREDependencies) (input : GetPodsInput) : Payload :=
  match K8sClient.get_pods ctx.k8s_client input.«namespace» input.label_selector with
  | .ok result => result.toPayload
  | .error e => [("error", Value.str e)]

/-- Tool `get_pod_logs` (lines 214–235). -/
def get_pod_logs (ctx : SREDependencies) (input : GetPodLogsInput) : Payload :=
  match K8sClient.get_pod_logs ctx.k8s_client input.pod_name input.«namespace»
      input.container input.tail_lines with
  | .ok logs => [("logs", Value.str logs), ("pod_name", Value.str input.pod_name)]
  | .error e => [("error", Value.str e)]

/-- Tool `get_deployments` (lines 237–254). -/
def get_deployments (ctx : SREDependencies) (input : GetDeploymentsInput) : Payload :=
  match K8sClient.get_deployments ctx.k8s_client input.«namespace» input.label_selector with
  | .ok result => result
  | .error e => [("error", Value.str e)]

/-- Tool `get_events` (lines 256–275). -/
def get_events (ctx : SREDependencies) (input : GetEventsInput) : Payload :=
  match K8sClient.get_events ctx.k8s_client input.«namespace» input.field_selector
      input.limit with
  | .ok result => result
  | .error e => [("error", Value.str e)]

/-- Tool `search_runbooks` (lines 277–290). -/
def search_runbooks (ctx : SREDependencies) (input : SearchRunbooksInput) : Payload :=
  match ctx.document_service.search_documents input.query input.n_results with
  | .ok results => [("results", Value.arr (results.map Value.dict)),
                    ("query", Value.str input.query)]
  | .error e => [("error", Value.str e)]

/-- Tool `delete_pod` (lines 292–312). -/
def delete_pod (ctx : SREDependencies) (input : DeletePodInput) : Payload :=
  match K8sClient.delete_pod ctx.k8s_client input.pod_name input.«namespace»
      input.grace_period_seconds with
  | .ok result => result
  | .error e => [("error", Value.str e), ("status", Value.str "failed")]

/-- Tool `delete_deployment` (lines 314–334). -/
def delete_deployment (ctx : SREDependencies) (input : DeleteDeploymentInput) : Payload :=
  match K8sClient.delete_deployment ctx.k8s_client input.deployment_name input.«namespace»
      input.grace_period_seconds with
  | .ok result => result
  | .error e => [("error", Value.str e), ("status", Value.str "failed")]

/-- Tool `delete_service` (lines 336–354). -/
def delete_service (ctx : SREDependencies) (input : DeleteServiceInput) : Payload :=
  match K8sClient.delete_service ctx.k8s_client input.service_name input.«namespace» with
  | .ok result => result
  | .error e => [("error", Value.str e), ("status", Value.str "failed")]

/-- Tool `delete_statefulset` (lines 356–376). -/
def delete_statefulset (ctx : SREDependencies) (input : DeleteStatefulSetInput) : Payload :=
  match K8sClient.delete_statefulset ctx.k8s_client input.statefulset_name input.«namespace»
      input.grace_period_seconds with
  | .ok result => result
  | .error e => [("error", Value.str e), ("status", Value.str "failed")]

/-- Tool `delete_daemonset` (lines 378–398). -/
def delete_daemonset (ctx : SREDependencies) (input : DeleteDaemonSetInput) : Payload :=
  match K8sClient.delete_daemonset ctx.k8s_client input.daemonset_name input.«namespace»
      input.grace_period_seconds with
  | .ok result => result
  | .error e => [("error", Value.str e), ("status", Value.str "failed")]

/-- Tool `delete_configmap` (lines 400–418). -/
def delete_configmap (ctx : SREDependencies) (input : DeleteConfigMapInput) : Payload :=
  match K8sClient.delete_configmap ctx.k8s_client input.configmap_name input.«namespace» with
  | .ok result => result
  | .error e => [("error", Value.str e), ("status", Value.str "failed")]

/-- Tool `delete_secret` (lines 420–438). -/
def delete_secret (ctx : SREDependencies) (input : DeleteSecretInput) : Payload :=
  match K8sClient.delete_secret ctx.k8s_client input.secret_name input.«namespace» with
  | .ok result => result
  | .error e => [("error", Value.str e), ("status", Value.str "failed")]

/-! ## The reasoning engine and `SREAgent.chat` (ai_agent.py 440–544) -/

/-- Whole-run token usage as reported by the engine (`result.usage()`). -/
structure Usage where
  input_tokens : Int
  output_tokens : Int
deriving DecidableEq

/-- How `part.args` of a tool-call part may be represented
(ai_agent.py lines 515–522): a structured object with `model_dump()`, a plain
dict, or anything else (recorded via `str(...)`). -/
inductive ToolArgs where
  | model : Payload → ToolArgs
  | dict : Payload → ToolArgs
  | raw : String → ToolArgs

/-- One tool-call part found among `result.all_messages()`
(a part carrying `tool_name`, lines 510–529). -/
structure ToolCallPart where
  tool_name : String
  args : ToolArgs

/-- What one `self.agent.run(...)` call yields: the final output text, the
reported usage (`None` possible), and the tool-call parts of
`result.all_messages()` in order.  The engine itself (model, tool loop) is the
external collaborator; `Except.error` is a raised engine exception. -/
structure EngineResult where
  output : String
  usage : Option Usage
  tool_parts : List ToolCallPart

/-- Argument normalization of lines 515–522: `model_dump()` when available,
the dict as is, otherwise `{"raw": str(args)}`. -/
def normalizeArgs : ToolArgs → Payload
  | .model args => args
  | .dict args => args
  | .raw s => [("raw", Value.str s)]

/-- The `tool_calls_made` list built at lines 508–529, in message order. -/
def toolCallsMade (parts : List ToolCallPart) : List Payload :=
  parts.map fun part =>
    [("tool", Value.str part.tool_name),
     ("arguments", Value.dict (normalizeArgs part.args))]

/-- The `"usage"` entry of the chat response: `{...} if usage else None`
(lines 535–539).  The `none` branch mirrors the `else None`; `chat` cannot
reach it, because the `logger.info` call at lines 501–505 dereferences
`usage.input_tokens` first and raises when usage is `None`. -/
def usageValue : Option Usage → Value
  | some usage => .dict [("input_tokens", .num usage.input_tokens),
                         ("output_tokens", .num usage.output_tokens),
                         ("total_tokens", .num (usage.input_tokens + usage.output_tokens))]
  | none => .null

/-- One entry of `conversation_history` as the API supplies it
(`[{"role": "user"|"assistant", "content": ...}]`, chat docstring line 451). -/
structure HistoryMessage where
  role : String
  content : String
deriving DecidableEq

/-- The fixed substring detecting the canned initial greeting
(ai_agent.py line 470). -/
def greetingMarker : String := "Hello! I'm your SRE AI Assistant"

/-- The history filter loop of lines 466–472: drop every assistant message
whose content contains the greeting marker, keep everything else in order. -/
def filteredHistoryFn : List HistoryMessage → List HistoryMessage
  | [] => []
  | msg :: rest =>
    if msg.role == "assistant" && strContains msg.content greetingMarker then
      filteredHistoryFn rest
    else
      msg :: filteredHistoryFn rest

/-- The lines appended for one history message (lines 481–487): user and
assistant messages are rendered, any other role appends nothing. -/
def renderHistoryMessage (msg : HistoryMessage) : List String :=
  if msg.role == "user" then ["\nUser said: " ++ msg.content]
  else if msg.role == "assistant" then
    ["\nYou (assistant) previously responded: " ++ msg.content]
  else []

/-- The `conversation_context` list built at lines 477–490 for a non-empty
filtered history. -/
def conversationContext («namespace» : String) (filtered_history : List HistoryMessage)
    (user_message : String) : List String :=
  ["[Current default namespace: " ++ «namespace» ++ "]",
   "\n[Previous conversation in this session:]"]
  ++ filtered_history.flatMap renderHistoryMessage
  ++ ["\n\n[Current user message in this ongoing conversation:]", user_message]

/-- The `enhanced_message` construction of lines 463–495: filter the history,
then either join the conversation context with newlines or, with no remaining
history, prepend only the namespace line. -/
def buildPrompt («namespace» : String) (conversation_history : List HistoryMessage)
    (user_message : String) : String :=
  let filtered_history := filteredHistoryFn conversation_history
  if filtered_history.isEmpty then
    "[Current default namespace: " ++ «namespace» ++ "]\n\n" ++ user_message
  else
    String.intercalate "\n" (conversationContext «namespace» filtered_history user_message)

/-- `SREAgent.chat` (ai_agent.py lines 440–544) from the run result on:
`engine` is `self.agent.run` applied to the enhanced message, `model` is
`self.model`.  An engine exception is re-raised by the outer `except` (line
544); when the engine reports no usage, the `logger.info` f-string at lines
501–505 dereferences `usage.input_tokens` on `None` and that `AttributeError`
is likewise re-raised. -/
def chat (engine : String → Except String EngineResult) (model : String)
    (user_message : String) (conversation_history : List HistoryMessage)
    («namespace» : String) : Except String Payload :=
  let enhanced_message := buildPrompt «namespace» conversation_history user_message
  match engine enhanced_message with
  | .error e => .error e
  | .ok result =>
    match result.usage with
    | none => .error "AttributeError: 'NoneType' object has no attribute 'input_tokens'"
    | some usage =>
      .ok [("response", Value.str result.output),
           ("tool_calls", Value.arr ((toolCallsMade result.tool_parts).map Value.dict)),
           ("model", Value.str model),
           ("usage", usageValue (some usage))]

/-! ## Proactive analysis (`SREAgent.analyze_pod_issues`, ai_agent.py 546–619) -/

/-- The issues one pod contributes (lines 565–585): one record when the phase
is not `Running`, then one record per container with restart count above 5,
in container order. -/
def podIssues (pod : PodInfo) : List Payload :=
  (if pod.status != "Running" then
    [[("pod", Value.str pod.name), ("status", Value.str pod.status),
      ("conditions", Value.arr (pod.conditions.map PodCondition.toValue))]]
   else [])
  ++ pod.containers.filterMap fun container =>
      if container.restart_count > 5 then
        some [("pod", Value.str pod.name), ("container", Value.str container.name),
              ("issue", Value.str "high_restart_count"),
              ("restart_count", Value.num container.restart_count)]
      else none

/-- The `issues` list over the whole snapshot (lines 564–585), pods in order. -/
def collectIssues (pods : List PodInfo) : List Payload :=
  (pods.map podIssues).flatten

/-- A plain JSON rendering of a value.  Stands for `json.dumps(issues,
indent=2)` (line 595); the indentation whitespace is not reproduced — every
claim quantifies over all engine behaviours, so the prompt bytes decide
nothing. -/
def Value.toJson : Value → String
  | .str s => "\x22" ++ s ++ "\x22"
  | .num n => toString n
  | .bool b => if b then "true" else "false"
  | .null => "null"
  | .arr vs => "[" ++ String.intercalate ", " (vs.attach.map fun v => v.1.toJson) ++ "]"
  | .dict kvs => "\x7b" ++ String.intercalate ", "
      (kvs.attach.map fun kv => "\x22" ++ kv.1.1 ++ "\x22: " ++ kv.1.2.toJson) ++ "\x7d"
decreasing_by
  · obtain ⟨v, hmem⟩ := v
    have h := List.sizeOf_lt_of_mem hmem
    simp only [Value.arr.sizeOf_spec]
    omega
  · obtain ⟨⟨k, w⟩, hmem⟩ := kv
    have h := List.sizeOf_lt_of_mem hmem
    simp only [Value.dict.sizeOf_spec, Prod.mk.sizeOf_spec] at *
    omega

/-- The analysis prompt of lines 595–606. -/
def analysisPrompt (issues : List Payload) («namespace» : String) : String :=
  let issue_summary := Value.toJson (.arr (issues.map .dict))
  "Analyze these Kubernetes pod issues and provide recommendations:\n\nIssues found:\n"
  ++ issue_summary ++ "\n\nNamespace: " ++ «namespace»
  ++ "\n\nPlease provide:\n1. Root cause analysis for each issue\n2. Recommended actions to resolve\n3. Preventive measures"

/-- `SREAgent.analyze_pod_issues` (lines 546–619).  The first component is the
returned dict, or `Except.error` when a raised exception was re-raised by the
final `except` (lines 617–619); the second counts the `self.chat` calls made,
i.e. the reasoning-engine invocations. -/
def analyze_pod_issues (api : ClusterApi) (engine : String → Except String EngineResult)
    (model «namespace» : String) (label_selector : Option String) :
    Except String Payload × Nat :=
  match K8sClient.get_pods api «namespace» label_selector with
  | .error e => (.error e, 0)
  | .ok pods_data =>
    let issues := collectIssues pods_data.pods
    if issues.isEmpty then
      (.ok [("status", Value.str "healthy"),
            ("message", Value.str ("All pods in namespace '" ++ «namespace» ++ "' appear healthy")),
            ("pods_checked", Value.num (pods_data.pods.length : Int))], 0)
    else
      match chat engine model (analysisPrompt issues «namespace») [] «namespace» with
      | .error e => (.error e, 1)
      | .ok response =>
        match response.lookup "response", response.lookup "tool_calls" with
        | some analysis, some tool_calls =>
          (.ok [("status", Value.str "issues_found"),
                ("issues", Value.arr (issues.map Value.dict)),
                ("analysis", analysis),
                ("tool_calls", tool_calls)], 1)
        | _, _ => (.error "KeyError", 1)

/-! ## The tool registry as a static catalogue

`_register_tools` registers exactly twelve tools in source order; each tool's
input schema is the pydantic model at the top of ai_agent.py, recorded here
field by field (name, requiredness, declared default).  A field is required
exactly when its `Field(...)` declares no default.  A tool is destructive
exactly when its docstring carries the "destructive operation" warning. -/

/-- One field of a tool input schema. -/
structure FieldSpec where
  name : String
  required : Bool
  default : Option Value

/-- One registered tool: name, input schema, destructive classification. -/
structure ToolDef where
  name : String
  fields : List FieldSpec
  destructive : Bool

/-- Schema of `GetPodsInput`. -/
def GetPodsInput.schema : List FieldSpec :=
  [⟨"namespace", false, some (.str "default")⟩,
   ⟨"label_selector", false, some .null⟩]

/-- Schema of `GetPodLogsInput`. -/
def GetPodLogsInput.schema : List FieldSpec :=
  [⟨"pod_name", true, none⟩,
   ⟨"namespace", false, some (.str "default")⟩,
   ⟨"container", false, some .null⟩,
   ⟨"tail_lines", false, some (.num 100)⟩]

/-- Schema of `GetDeploymentsInput`. -/
def GetDeploymentsInput.schema : List FieldSpec :=
  [⟨"namespace", false, some (.str "default")⟩,
   ⟨"label_selector", false, some .null⟩]

/-- Schema of `GetEventsInput`. -/
def GetEventsInput.schema : List FieldSpec :=
  [⟨"namespace", false, some (.str "default")⟩,
   ⟨"field_selector", false, some .null⟩,
   ⟨"limit", false, some (.num 50)⟩]

/-- Schema of `SearchRunbooksInput`. -/
def SearchRunbooksInput.schema : List FieldSpec :=
  [⟨"query", true, none⟩,
   ⟨"n_results", false, some (.num 3)⟩]

/-- Schema of `DeletePodInput`. -/
def DeletePodInput.schema : List FieldSpec :=
  [⟨"pod_name", true, none⟩,
   ⟨"namespace", false, some (.str "default")⟩,
   ⟨"grace_period_seconds", false, some .null⟩]

/-- Schema of `DeleteDeploymentInput`. -/
def DeleteDeploymentInput.schema : List FieldSpec :=
  [⟨"deployment_name", true, none⟩,
   ⟨"namespace", false, some (.str "default")⟩,
   ⟨"grace_period_seconds", false, some .null⟩]

/-- Schema of `DeleteServiceInput`. -/
def DeleteServiceInput.schema : List FieldSpec :=
  [⟨"service_name", true, none⟩,
   ⟨"namespace", false, some (.str "default")⟩]

/-- Schema of `DeleteStatefulSetInput`. -/
def DeleteStatefulSetInput.schema : List FieldSpec :=
  [⟨"statefulset_name", true, none⟩,
   ⟨"namespace", false, some (.str "default")⟩,
   ⟨"grace_period_seconds", false, some .null⟩]

/-- Schema of `DeleteDaemonSetInput`. -/
def DeleteDaemonSetInput.schema : List FieldSpec :=
  [⟨"daemonset_name", true, none⟩,
   ⟨"namespace", false, some (.str "default")⟩,
   ⟨"grace_period_seconds", false, some .null⟩]

/-- Schema of `DeleteConfigMapInput`. -/
def DeleteConfigMapInput.schema : List FieldSpec :=
  [⟨"configmap_name", true, none⟩,
   ⟨"namespace", false, some (.str "default")⟩]

/-- Schema of `DeleteSecretInput`. -/
def DeleteSecretInput.schema : List FieldSpec :=
  [⟨"secret_name", true, none⟩,
   ⟨"namespace", false, some (.str "default")⟩]

/-- The twelve tools `_register_tools` registers (ai_agent.py lines 192–438),
in registration order. -/
def toolRegistry : List ToolDef :=
  [⟨"get_pods", GetPodsInput.schema, false⟩,
   ⟨"get_pod_logs", GetPodLogsInput.schema, false⟩,
   ⟨"get_deployments", GetDeploymentsInput.schema, false⟩,
   ⟨"get_events", GetEventsInput.schema, false⟩,
   ⟨"search_runbooks", SearchRunbooksInput.schema, false⟩,
   ⟨"delete_pod", DeletePodInput.schema, true⟩,
   ⟨"delete_deployment", DeleteDeploymentInput.schema, true⟩,
   ⟨"delete_service", DeleteServiceInput.schema, true⟩,
   ⟨"delete_statefulset", DeleteStatefulSetInput.schema, true⟩,
   ⟨"delete_daemonset", DeleteDaemonSetInput.schema, true⟩,
   ⟨"delete_configmap", DeleteConfigMapInput.schema, true⟩,
   ⟨"delete_secret", DeleteSecretInput.schema, true⟩]

/-- The legal resource-name fields of the destructive tools. -/
def resourceNameFields : List String :=
  ["pod_name", "deployment_name", "service_name", "statefulset_name",
   "daemonset_name", "configmap_name", "secret_name"]

/-- `true` on `Some(Value.str "default")`. -/
def isDefaultStr : Option Value → Bool
  | some (.str s) => s == "default"
  | _ => false

/-- `true` on `Some(Value.null)` — a declared default of `None`. -/
def isNoneDefault : Option Value → Bool
  | some .null => true
  | _ => false

/-- Shape check for a destructive tool's schema: a required resource-name
field, then `namespace` defaulting to `"default"`, then at most an optional
`grace_period_seconds` defaulting to `None`. -/
def destructiveSchemaOk (t : ToolDef) : Bool :=
  match t.fields with
  | f1 :: f2 :: rest =>
    f1.required && resourceNameFields.contains f1.name
      && f2.name == "namespace" && !f2.required && isDefaultStr f2.default
      && (match rest with
          | [] => true
          | [g] => g.name == "grace_period_seconds" && !g.required && isNoneDefault g.default
          | _ => false)
  | _ => false

/-! ## Document search (`services/document_service.py`) -/

/-- The raw result of `self.collection.query(query_embeddings=[...],
n_results=..., where=...)` (document_service.py lines 200–204): one inner list
per query embedding for each of the parallel keys. -/
structure ChromaQueryResult where
  documents : List (List String)
  metadatas : List (List Payload)
  distances : List (List Value)
  ids : List (List String)

/-- Python list indexing: `IndexError` out of range. -/
def pyIndex (l : List α) (i : Nat) : Except String α :=
  match l.get? i with
  | some a => .ok a
  | none => .error "IndexError: list index out of range"

/-- The result formatting of `DocumentService.search_documents`
(document_service.py lines 206–225): skip everything when
`results["documents"]` or `results["documents"][0]` is empty/falsy, otherwise
build one `{content, metadata, distance, id}` record per returned document, in
order.  The embedding generation and the store query that produce `results`
are the upstream collaborators; an exception they raise is re-raised by the
outer `except` (lines 227–229) before this formatting runs. -/
def DocumentService.search_documents (results : ChromaQueryResult) :
    Except String (List Payload) :=
  match results.documents with
  | [] => .ok []
  | docs0 :: _ =>
    if docs0.isEmpty then .ok []
    else
      docs0.enum.mapM fun p => do
        let metadatas0 ← pyIndex results.metadatas 0
        let metadata ← pyIndex metadatas0 p.1
        let distances0 ← pyIndex results.distances 0
        let distance ← pyIndex distances0 p.1
        let ids0 ← pyIndex results.ids 0
        let id ← pyIndex ids0 p.1
        pure [("content", Value.str p.2), ("metadata", Value.dict metadata),
              ("distance", distance), ("id", Value.str id)]

/-! ## Claims -/

/-- C4, counterexample.  The registry does not contain the read tools the
claim lists: there is no namespace-listing and no service-listing tool at all,
and the registry does contain `search_runbooks`, which the claim's read list
omits.  The twelve registered names are exhibited. -/
theorem c4_registry_counterexample :
    toolRegistry.map ToolDef.name =
      ["get_pods", "get_pod_logs", "get_deployments", "get_events",
       "search_runbooks", "delete_pod", "delete_deployment", "delete_service",
       "delete_statefulset", "delete_daemonset", "delete_configmap",
       "delete_secret"] ∧
    toolRegistry.all (fun t =>
      !(t.name == "get_namespaces" || t.name == "list_namespaces"
        || t.name == "get_services" || t.name == "list_services")) = true :=
  ⟨rfl, rfl⟩

/-- C4, amended.  The registry defined at agent construction contains exactly
the read tools `get_pods`, `get_pod_logs`, `get_deployments`, `get_events`
and `search_runbooks`, and the seven destructive delete tools; every
destructive tool takes a required resource name, a namespace defaulting to
`"default"`, and exactly the four tools with termination semantics (pod,
deployment, statefulset, daemonset) additionally take an optional
`grace_period_seconds` defaulting to `None`. -/
theorem c4_registry_amended :
    toolRegistry.map ToolDef.name =
      ["get_pods", "get_pod_logs", "get_deployments", "get_events",
       "search_runbooks", "delete_pod", "delete_deployment", "delete_service",
       "delete_statefulset", "delete_daemonset", "delete_configmap",
       "delete_secret"] ∧
    (toolRegistry.filter ToolDef.destructive).map ToolDef.name =
      ["delete_pod", "delete_deployment", "delete_service",
       "delete_statefulset", "delete_daemonset", "delete_configmap",
       "delete_secret"] ∧
    toolRegistry.all (fun t => !t.destructive || destructiveSchemaOk t) = true ∧
    (toolRegistry.filter (fun t =>
        t.fields.any (fun f => f.name == "grace_period_seconds"))).map ToolDef.name =
      ["delete_pod", "delete_deployment", "delete_statefulset", "delete_daemonset"] :=
  ⟨rfl, rfl, rfl, rfl⟩

/-- C5.  The claim states the cluster accessor provides one delete operation
per resource kind; the class `K8sClient` defines none of the seven, so the
agent's call `k8s_client.delete_pod(...)` raises `AttributeError` instead of
reaching the cluster — evaluated here at the claim's shape for every
underlying cluster api. -/
theorem c5_k8s_client_missing_deletes (api : ClusterApi) :
    (["delete_pod", "delete_deployment", "delete_service", "delete_statefulset",
      "delete_daemonset", "delete_configmap", "delete_secret"].all
        (fun m => !k8sClientMethods.contains m)) = true ∧
    K8sClient.delete_pod api "web-1" "default" none =
      .error (attributeError "delete_pod") :=
  ⟨rfl, rfl⟩

/-- C6.  Every invocation of any of the seven destructive tools, for any
arguments and any dependency context built over the real `K8sClient` (that is,
over any underlying cluster api), returns the payload
`{"error": AttributeError message, "status": "failed"}`: the attribute lookup
fails before any cluster operation, so the result does not depend on `api` —
no destructive invocation ever reaches the cluster API. -/
theorem c6_destructive_tools_never_reach_cluster (api : ClusterApi)
    (doc : DocumentServiceHandle) (dns : String) :
    (∀ i : DeletePodInput, delete_pod ⟨api, doc, dns⟩ i =
      [("error", Value.str (attributeError "delete_pod")),
       ("status", Value.str "failed")]) ∧
    (∀ i : DeleteDeploymentInput, delete_deployment ⟨api, doc, dns⟩ i =
      [("error", Value.str (attributeError "delete_deployment")),
       ("status", Value.str "failed")]) ∧
    (∀ i : DeleteServiceInput, delete_service ⟨api, doc, dns⟩ i =
      [("error", Value.str (attributeError "delete_service")),
       ("status", Value.str "failed")]) ∧
    (∀ i : DeleteStatefulSetInput, delete_statefulset ⟨api, doc, dns⟩ i =
      [("error", Value.str (attributeError "delete_statefulset")),
       ("status", Value.str "failed")]) ∧
    (∀ i : DeleteDaemonSetInput, delete_daemonset ⟨api, doc, dns⟩ i =
      [("error", Value.str (attributeError "delete_daemonset")),
       ("status", Value.str "failed")]) ∧
    (∀ i : DeleteConfigMapInput, delete_configmap ⟨api, doc, dns⟩ i =
      [("error", Value.str (attributeError "delete_configmap")),
       ("status", Value.str "failed")]) ∧
    (∀ i : DeleteSecretInput, delete_secret ⟨api, doc, dns⟩ i =
      [("error", Value.str (attributeError "delete_secret")),
       ("status", Value.str "failed")]) :=
  ⟨fun _ => rfl, fun _ => rfl, fun _ => rfl, fun _ => rfl,
   fun _ => rfl, fun _ => rfl, fun _ => rfl⟩

/-- C1.  For every dependency context, every validated input and every
exception message `e`: when the collaborator call a tool dispatches raises,
the tool returns a structured payload instead of propagating — `{"error": e}`
for the read tools (`get_pods`, `get_pod_logs`, `get_deployments`,
`get_events`, `search_runbooks`) and `{"error": e, "status": "failed"}` for
the destructive tools.  Every tool has type `Payload`, not `Except`, so no
exception from a tool call crosses the dispatch boundary and the turn
completes normally. -/
theorem c1_tool_dispatch_failure_isolated (ctx : SREDependencies) (e : String) :
    (∀ i : GetPodsInput,
      K8sClient.get_pods ctx.k8s_client i.«namespace» i.label_selector = .error e →
      get_pods ctx i = [("error", Value.str e)]) ∧
    (∀ i : GetPodLogsInput,
      K8sClient.get_pod_logs ctx.k8s_client i.pod_name i.«namespace» i.container
        i.tail_lines = .error e →
      get_pod_logs ctx i = [("error", Value.str e)]) ∧
    (∀ i : GetDeploymentsInput,
      K8sClient.get_deployments ctx.k8s_client i.«namespace» i.label_selector = .error e →
      get_deployments ctx i = [("error", Value.str e)]) ∧
    (∀ i : GetEventsInput,
      K8sClient.get_events ctx.k8s_client i.«namespace» i.field_selector i.limit = .error e →
      get_events ctx i = [("error", Value.str e)]) ∧
    (∀ i : SearchRunbooksInput,
      ctx.document_service.search_documents i.query i.n_results = .error e →
      search_runbooks ctx i = [("error", Value.str e)]) ∧
    (∀ i : DeletePodInput,
      K8sClient.delete_pod ctx.k8s_client i.pod_name i.«namespace»
        i.grace_period_seconds = .error e →
      delete_pod ctx i = [("error", Value.str e), ("status", Value.str "failed")]) ∧
    (∀ i : DeleteDeploymentInput,
      K8sClient.delete_deployment ctx.k8s_client i.deployment_name i.«namespace»
        i.grace_period_seconds = .error e →
      delete_deployment ctx i = [("error", Value.str e), ("status", Value.str "failed")]) ∧
    (∀ i : DeleteServiceInput,
      K8sClient.delete_service ctx.k8s_client i.service_name i.«namespace» = .error e →
      delete_service ctx i = [("error", Value.str e), ("status", Value.str "failed")]) ∧
    (∀ i : DeleteStatefulSetInput,
      K8sClient.delete_statefulset ctx.k8s_client i.statefulset_name i.«namespace»
        i.grace_period_seconds = .error e →
      delete_statefulset ctx i = [("error", Value.str e), ("status", Value.str "failed")]) ∧
    (∀ i : DeleteDaemonSetInput,
      K8sClient.delete_daemonset ctx.k8s_client i.daemonset_name i.«namespace»
        i.grace_period_seconds = .error e →
      delete_daemonset ctx i = [("error", Value.str e), ("status", Value.str "failed")]) ∧
    (∀ i : DeleteConfigMapInput,
      K8sClient.delete_configmap ctx.k8s_client i.configmap_name i.«namespace» = .error e →
      delete_configmap ctx i = [("error", Value.str e), ("status", Value.str "failed")]) ∧
    (∀ i : DeleteSecretInput,
      K8sClient.delete_secret ctx.k8s_client i.secret_name i.«namespace» = .error e →
      delete_secret ctx i = [("error", Value.str e), ("status", Value.str "failed")]) := by
  refine ⟨fun i h => ?_, fun i h => ?_, fun i h => ?_, fun i h => ?_, fun i h => ?_,
    fun i h => ?_, fun i h => ?_, fun i h => ?_, fun i h => ?_, fun i h => ?_,
    fun i h => ?_, fun i h => ?_⟩
  · simp [get_pods, h]
  · simp [get_pod_logs, h]
  · simp [get_deployments, h]
  · simp [get_events, h]
  · simp [search_runbooks, h]
  · simp [delete_pod, h]
  · simp [delete_deployment, h]
  · simp [delete_service, h]
  · simp [delete_statefulset, h]
  · simp [delete_daemonset, h]
  · simp [delete_configmap, h]
  · simp [delete_secret, h]

/-- A cluster api whose every operation raises `ApiException: boom`. -/
def failingApi : ClusterApi where
  list_namespaced_pod := fun _ _ => .error "boom"
  read_namespaced_pod_log := fun _ _ _ _ => .error "boom"
  list_namespaced_deployment := fun _ _ => .error "boom"
  list_namespaced_event := fun _ _ _ => .error "boom"
  delete_namespaced_pod := fun _ _ _ => .error "boom"
  delete_namespaced_deployment := fun _ _ _ => .error "boom"
  delete_namespaced_service := fun _ _ => .error "boom"
  delete_namespaced_stateful_set := fun _ _ _ => .error "boom"
  delete_namespaced_daemon_set := fun _ _ _ => .error "boom"
  delete_namespaced_config_map := fun _ _ => .error "boom"
  delete_namespaced_secret := fun _ _ => .error "boom"

/-- A dependency context over `failingApi` and a failing document service. -/
def failingDeps : SREDependencies :=
  ⟨failingApi, ⟨fun _ _ => .error "boom"⟩, "default"⟩

/-- C1, witness: the dispatch theorem applied at a concrete failing context
for one read tool, the runbook-search tool and one destructive tool. -/
theorem c1_tool_dispatch_witness :
    get_pods failingDeps ⟨"default", none⟩ = [("error", Value.str "boom")] ∧
    search_runbooks failingDeps ⟨"pod crashloop", 3⟩ = [("error", Value.str "boom")] ∧
    delete_pod failingDeps ⟨"web-1", "default", none⟩ =
      [("error", Value.str (attributeError "delete_pod")),
       ("status", Value.str "failed")] :=
  ⟨(c1_tool_dispatch_failure_isolated failingDeps "boom").1 ⟨"default", none⟩ rfl,
   (c1_tool_dispatch_failure_isolated failingDeps "boom").2.2.2.2.1 ⟨"pod crashloop", 3⟩ rfl,
   (c1_tool_dispatch_failure_isolated failingDeps
      (attributeError "delete_pod")).2.2.2.2.2.1 ⟨"web-1", "default", none⟩ rfl⟩

/-- A pod meeting both health criteria contributes no issue. -/
theorem podIssues_eq_nil (p : PodInfo) (h1 : p.status = "Running")
    (h2 : ∀ c ∈ p.containers, c.restart_count ≤ 5) : podIssues p = [] := by
  unfold podIssues
  rw [h1]
  simp only [bne_self_eq_false, Bool.false_eq_true, if_false, List.nil_append,
    List.filterMap_eq_nil_iff]
  intro c hc
  rw [if_neg (by have := h2 c hc; omega)]

/-- A snapshot meeting both health criteria contributes no issue. -/
theorem collectIssues_eq_nil (pods : List PodInfo)
    (hrun : ∀ p ∈ pods, p.status = "Running")
    (hres : ∀ p ∈ pods, ∀ c ∈ p.containers, c.restart_count ≤ 5) :
    collectIssues pods = [] := by
  unfold collectIssues
  induction pods with
  | nil => rfl
  | cons p rest ih =>
    simp only [List.map_cons, List.flatten_cons]
    rw [podIssues_eq_nil p (hrun p (by simp)) (hres p (by simp)),
      ih (fun q hq => hrun q (by simp [hq])) (fun q hq => hres q (by simp [hq]))]
    rfl

/-- C2.  On every snapshot in which every pod is `Running` and every container
has a restart count of at most 5, proactive analysis returns the `healthy`
payload with `pods_checked` equal to the snapshot size, and performs zero
reasoning-engine invocations — for every engine whatsoever. -/
theorem c2_healthy_short_circuit (api : ClusterApi)
    (engine : String → Except String EngineResult) (model ns : String)
    (sel : Option String) (pods : List PodInfo)
    (hapi : api.list_namespaced_pod ns sel = .ok pods)
    (hrun : ∀ p ∈ pods, p.status = "Running")
    (hres : ∀ p ∈ pods, ∀ c ∈ p.containers, c.restart_count ≤ 5) :
    analyze_pod_issues api engine model ns sel =
      (.ok [("status", Value.str "healthy"),
            ("message", Value.str ("All pods in namespace '" ++ ns ++ "' appear healthy")),
            ("pods_checked", Value.num (pods.length : Int))], 0) := by
  have hget : K8sClient.get_pods api ns sel = .ok ⟨pods, pods.length⟩ := by
    simp [K8sClient.get_pods, k8sMethodCall, hapi]
    decide
  unfold analyze_pod_issues
  rw [hget]
  simp [collectIssues_eq_nil pods hrun hres]

/-- A healthy pod for the C2 witness. -/
def healthyPod : PodInfo :=
  ⟨"web-0", "default", "Running", [], [⟨"app", "nginx:latest", true, 2⟩],
   "node-1", "2024-01-01T00:00:00"⟩

/-- A cluster api returning exactly `[healthyPod]`. -/
def healthyApi : ClusterApi :=
  { failingApi with list_namespaced_pod := fun _ _ => .ok [healthyPod] }

/-- C2, witness: the short-circuit theorem applied to a concrete one-pod
healthy snapshot and an engine that would fail if it were ever invoked. -/
theorem c2_healthy_witness :
    (∀ p ∈ [healthyPod], p.status = "Running") ∧
    (∀ p ∈ [healthyPod], ∀ c ∈ p.containers, c.restart_count ≤ 5) ∧
    analyze_pod_issues healthyApi (fun _ => .error "engine invoked")
        "gpt-4-turbo-preview" "default" none =
      (.ok [("status", Value.str "healthy"),
            ("message", Value.str "All pods in namespace 'default' appear healthy"),
            ("pods_checked", Value.num 1)], 0) :=
  ⟨by decide, by decide,
   c2_healthy_short_circuit healthyApi (fun _ => .error "engine invoked")
     "gpt-4-turbo-preview" "default" none [healthyPod] rfl (by decide) (by decide)⟩

/-- Counting helper: a `filterMap` keeping exactly the elements passing a
decidable test returns as many elements as the corresponding `filter`. -/
theorem length_filterMap_ite {α β : Type} (p : α → Prop) [DecidablePred p] (g : α → β) :
    ∀ l : List α, (l.filterMap fun a => if p a then some (g a) else none).length
      = (l.filter fun a => decide (p a)).length
  | [] => rfl
  | a :: l => by
    by_cases h : p a <;>
      simp [List.filterMap_cons, List.filter_cons, h, length_filterMap_ite p g l]

/-- The two detection rules are independent: one pod contributes one issue for
a non-`Running` phase plus one issue per container with restart count above
five. -/
theorem podIssues_length (p : PodInfo) :
    (podIssues p).length =
      (if p.status = "Running" then 0 else 1)
      + (p.containers.filter fun c => c.restart_count > 5).length := by
  unfold podIssues
  rw [List.length_append]
  congr 1
  · by_cases h : p.status = "Running" <;> simp [h]
  · exact length_filterMap_ite (fun c => c.restart_count > 5) _ p.containers

/-- C3.  The two detection rules run independently over every pod (the
counting identity below); a single pod with a non-`Running` phase and one
container whose restart count exceeds 5 produces at least two issues; and on
such a snapshot, for every engine that answers normally, proactive analysis
returns `status = "issues_found"` carrying the whole issue list, the engine's
textual analysis and the tool calls recorded during the synthetic turn, with
exactly one engine invocation. -/
theorem c3_two_detection_rules (api : ClusterApi)
    (engine : String → Except String EngineResult) (model ns : String)
    (sel : Option String) (pod : PodInfo) (res : EngineResult) (u : Usage)
    (hapi : api.list_namespaced_pod ns sel = .ok [pod])
    (hstatus : pod.status ≠ "Running")
    (hrestart : ∃ c ∈ pod.containers, c.restart_count > 5)
    (hengine : ∀ m, engine m = .ok res)
    (husage : res.usage = some u) :
    (∀ q : PodInfo, (podIssues q).length =
        (if q.status = "Running" then 0 else 1)
        + (q.containers.filter fun c => c.restart_count > 5).length) ∧
    2 ≤ (collectIssues [pod]).length ∧
    analyze_pod_issues api engine model ns sel =
      (.ok [("status", Value.str "issues_found"),
            ("issues", Value.arr ((collectIssues [pod]).map Value.dict)),
            ("analysis", Value.str res.output),
            ("tool_calls", Value.arr ((toolCallsMade res.tool_parts).map Value.dict))], 1) := by
  have hlen2 : 2 ≤ (collectIssues [pod]).length := by
    obtain ⟨c, hc, hc5⟩ := hrestart
    have hmemf : c ∈ pod.containers.filter fun d => d.restart_count > 5 :=
      List.mem_filter.mpr ⟨hc, by simpa using hc5⟩
    have hpos := List.length_pos_of_mem hmemf
    have hcol : (collectIssues [pod]).length = (podIssues pod).length := by
      simp [collectIssues]
    rw [hcol, podIssues_length, if_neg hstatus]
    omega
  have hne : collectIssues [pod] ≠ [] := by
    intro h
    rw [h] at hlen2
    simp at hlen2
  have hget : K8sClient.get_pods api ns sel = .ok ⟨[pod], 1⟩ := by
    simp [K8sClient.get_pods, k8sMethodCall, hapi]
    decide
  have hchat : chat engine model (analysisPrompt (collectIssues [pod]) ns) [] ns =
      .ok [("response", Value.str res.output),
           ("tool_calls", Value.arr ((toolCallsMade res.tool_parts).map Value.dict)),
           ("model", Value.str model),
           ("usage", usageValue (some u))] := by
    unfold chat
    simp only [hengine, husage]
  refine ⟨podIssues_length, hlen2, ?_⟩
  unfold analyze_pod_issues
  rw [hget]
  simp only [List.isEmpty_eq_true, hne, if_false, hchat]
  simp [List.lookup]

/-- The C3 witness pod: `web-1`, phase `CrashLoopBackOff`, one container with
restart count 7. -/
def webPod : PodInfo :=
  ⟨"web-1", "default", "CrashLoopBackOff", [], [⟨"app", "nginx:latest", false, 7⟩],
   "node-1", "2024-01-01T00:00:00"⟩

/-- A cluster api returning exactly `[webPod]`. -/
def crashApi : ClusterApi :=
  { failingApi with list_namespaced_pod := fun _ _ => .ok [webPod] }

/-- The engine answer used by the C3 witness. -/
def engineRes3 : EngineResult := ⟨"analysis text", some ⟨10, 20⟩, []⟩

/-- C3, witness: the detection theorem applied at the concrete `web-1`
snapshot and a constant engine. -/
theorem c3_two_rules_witness :
    webPod.status ≠ "Running" ∧ (∃ c ∈ webPod.containers, c.restart_count > 5) ∧
    2 ≤ (collectIssues [webPod]).length ∧
    analyze_pod_issues crashApi (fun _ => .ok engineRes3)
        "gpt-4-turbo-preview" "default" none =
      (.ok [("status", Value.str "issues_found"),
            ("issues", Value.arr ((collectIssues [webPod]).map Value.dict)),
            ("analysis", Value.str "analysis text"),
            ("tool_calls", Value.arr [])], 1) :=
  have h := c3_two_detection_rules crashApi (fun _ => .ok engineRes3)
    "gpt-4-turbo-preview" "default" none webPod engineRes3 ⟨10, 20⟩
    rfl (by decide) (by decide) (fun _ => rfl) rfl
  ⟨by decide, by decide, h.2.1, h.2.2⟩

/-- The filter loop of lines 466–472 is exactly a `List.filter`: it removes
precisely the assistant messages containing the greeting marker. -/
theorem filteredHistoryFn_eq_filter (h : List HistoryMessage) :
    filteredHistoryFn h =
      h.filter fun m => !(m.role == "assistant" && strContains m.content greetingMarker) := by
  induction h with
  | nil => rfl
  | cons m rest ih =>
    unfold filteredHistoryFn
    cases hm : (m.role == "assistant" && strContains m.content greetingMarker) with
    | true =>
      have h12 := hm
      rw [Bool.and_eq_true] at h12
      simp [List.filter_cons, h12.1, h12.2, ih]
    | false =>
      by_cases hrole : m.role = "assistant"
      · have h2 : strContains m.content greetingMarker = false := by
          rw [hrole] at hm
          simpa using hm
        simp [List.filter_cons, hrole, h2, ih]
      · simp [List.filter_cons, hrole, ih]

/-- Claim-side rendering of one kept history message: "User said: …" for a
user message, "You (assistant) previously responded: …" for an assistant
message. -/
def renderedLine (m : HistoryMessage) : String :=
  if m.role == "user" then "\nUser said: " ++ m.content
  else "\nYou (assistant) previously responded: " ++ m.content

/-- Over user/assistant messages the context loop renders exactly one line per
message, in order. -/
theorem flatMap_render_eq_map (l : List HistoryMessage)
    (hroles : ∀ m ∈ l, m.role = "user" ∨ m.role = "assistant") :
    l.flatMap renderHistoryMessage = l.map renderedLine := by
  induction l with
  | nil => rfl
  | cons m rest ih =>
    rw [List.flatMap_cons, List.map_cons,
      ih (fun q hq => hroles q (List.mem_cons_of_mem _ hq))]
    rcases hroles m (List.mem_cons_self _ _) with hu | ha
    · simp [renderHistoryMessage, renderedLine, hu]
    · simp [renderHistoryMessage, renderedLine, ha]

/-- C7.  The prompt construction: the history filter drops exactly the
assistant messages matching the canned greeting by fixed substring (a
`List.filter`, hence a sublist — nothing else is removed, reordered or
altered); with a non-empty filtered history the prompt is the namespace line,
the session header, each remaining message rendered in original order, then
the delimiter followed by the new user message verbatim; with an empty
filtered history it is only the namespace line plus the new message. -/
theorem c7_conversation_context (ns u : String) (history : List HistoryMessage)
    (hroles : ∀ m ∈ history, m.role = "user" ∨ m.role = "assistant") :
    filteredHistoryFn history =
      history.filter (fun m => !(m.role == "assistant" && strContains m.content greetingMarker)) ∧
    (filteredHistoryFn history).Sublist history ∧
    (filteredHistoryFn history = [] →
      buildPrompt ns history u = "[Current default namespace: " ++ ns ++ "]\n\n" ++ u) ∧
    (filteredHistoryFn history ≠ [] →
      buildPrompt ns history u = String.intercalate "\n"
        (["[Current default namespace: " ++ ns ++ "]",
          "\n[Previous conversation in this session:]"]
         ++ (filteredHistoryFn history).map renderedLine
         ++ ["\n\n[Current user message in this ongoing conversation:]", u])) := by
  have hfil := filteredHistoryFn_eq_filter history
  have hsub : (filteredHistoryFn history).Sublist history := by
    rw [hfil]; exact List.filter_sublist _
  refine ⟨hfil, hsub, ?_, ?_⟩
  · intro hemp
    unfold buildPrompt
    simp [hemp]
  · intro hne
    have hempty : (filteredHistoryFn history).isEmpty = false := by
      cases hh : filteredHistoryFn history with
      | nil => exact absurd hh hne
      | cons a l => rfl
    unfold buildPrompt
    simp only [hempty, Bool.false_eq_true, if_false]
    unfold conversationContext
    rw [flatMap_render_eq_map _ (fun m hm => hroles m (hsub.subset hm))]

/-- The canned greeting message the chat frontend seeds. -/
def greetingMsg : HistoryMessage :=
  ⟨"assistant", "Hello! I'm your SRE AI Assistant. How can I help you today?"⟩

/-- A three-message history for the C7 witness: the canned greeting, one user
message, one genuine assistant reply. -/
def hist7 : List HistoryMessage :=
  [greetingMsg, ⟨"user", "pods are crashing"⟩, ⟨"assistant", "Let me check."⟩]

/-- C7, witness: the builder theorem applied to a concrete history containing
the greeting. -/
theorem c7_builder_witness :
    (∀ m ∈ hist7, m.role = "user" ∨ m.role = "assistant") ∧
    (filteredHistoryFn hist7 =
      hist7.filter (fun m => !(m.role == "assistant" && strContains m.content greetingMarker)) ∧
    (filteredHistoryFn hist7).Sublist hist7 ∧
    (filteredHistoryFn hist7 = [] →
      buildPrompt "default" hist7 "list pods" =
        "[Current default namespace: " ++ "default" ++ "]\n\n" ++ "list pods") ∧
    (filteredHistoryFn hist7 ≠ [] →
      buildPrompt "default" hist7 "list pods" = String.intercalate "\n"
        (["[Current default namespace: " ++ "default" ++ "]",
          "\n[Previous conversation in this session:]"]
         ++ (filteredHistoryFn hist7).map renderedLine
         ++ ["\n\n[Current user message in this ongoing conversation:]", "list pods"]))) :=
  ⟨by decide, c7_conversation_context "default" "list pods" hist7 (by decide)⟩

/-- C8.  For every turn whose engine reports usage, the returned payload's
usage satisfies `total_tokens = input_tokens + output_tokens`.  For a turn
whose engine reports no usage, however, `chat` does not return a response with
an absent usage: the `logger.info` f-string dereferences `usage.input_tokens`
on `None`, and the resulting `AttributeError` is re-raised — the
`{...} if usage else None` expression (mirrored by `usageValue`) is never
reached, so the turn aborts instead. -/
theorem c8_usage_accounting (engine : String → Except String EngineResult)
    (model msg ns : String) (hist : List HistoryMessage) (res : EngineResult)
    (hengine : ∀ m, engine m = .ok res) :
    (∀ u : Usage, res.usage = some u →
      chat engine model msg hist ns =
        .ok [("response", Value.str res.output),
             ("tool_calls", Value.arr ((toolCallsMade res.tool_parts).map Value.dict)),
             ("model", Value.str model),
             ("usage", Value.dict
               [("input_tokens", Value.num u.input_tokens),
                ("output_tokens", Value.num u.output_tokens),
                ("total_tokens", Value.num (u.input_tokens + u.output_tokens))])]) ∧
    (res.usage = none →
      chat engine model msg hist ns =
        .error "AttributeError: 'NoneType' object has no attribute 'input_tokens'") := by
  constructor
  · intro u hu
    unfold chat
    simp only [hengine, hu]
    rfl
  · intro hu
    unfold chat
    simp only [hengine, hu]

/-- C8, witness: the usage theorem applied to a concrete engine reporting
`input_tokens = 3, output_tokens = 4` (total 7 in the payload), and to a
concrete engine reporting no usage (the turn aborts). -/
theorem c8_usage_witness :
    chat (fun _ => .ok ⟨"hi", some ⟨3, 4⟩, []⟩) "gpt-4-turbo-preview" "msg" [] "default" =
      .ok [("response", Value.str "hi"),
           ("tool_calls", Value.arr []),
           ("model", Value.str "gpt-4-turbo-preview"),
           ("usage", Value.dict
             [("input_tokens", Value.num 3), ("output_tokens", Value.num 4),
              ("total_tokens", Value.num 7)])] ∧
    chat (fun _ => .ok ⟨"hi", none, []⟩) "gpt-4-turbo-preview" "msg" [] "default" =
      .error "AttributeError: 'NoneType' object has no attribute 'input_tokens'" :=
  ⟨(c8_usage_accounting (fun _ => .ok ⟨"hi", some ⟨3, 4⟩, []⟩) "gpt-4-turbo-preview"
      "msg" "default" [] ⟨"hi", some ⟨3, 4⟩, []⟩ (fun _ => rfl)).1 ⟨3, 4⟩ rfl,
   (c8_usage_accounting (fun _ => .ok ⟨"hi", none, []⟩) "gpt-4-turbo-preview"
      "msg" "default" [] ⟨"hi", none, []⟩ (fun _ => rfl)).2 rfl⟩

/-- The first issue record `analyze_pod_issues` builds for `webPod`
(ai_agent.py lines 566–573): keys `pod`, `status`, `conditions` only. -/
def webIssue0 : Payload :=
  [("pod", Value.str "web-1"), ("status", Value.str "CrashLoopBackOff"),
   ("conditions", Value.arr [])]

/-- C9, counterexample.  The claim says every produced Issue carries a kind
drawn from not_running/high_restart_count; but the record produced for a
non-`Running` pod has exactly the keys `pod`, `status`, `conditions` — no
`issue` kind marker at all (and no container name). -/
theorem c9_issue_shape_counterexample :
    (collectIssues [webPod]).head? = some webIssue0 ∧
    webIssue0.map Prod.fst = ["pod", "status", "conditions"] ∧
    webIssue0.lookup "issue" = none :=
  ⟨rfl, rfl, rfl⟩

/-- C9, amended.  Every record `analyze_pod_issues` produces is one of two
shapes: a not-running record with exactly the keys `pod` (the pod name),
`status` (the observed phase) and `conditions`, carrying no explicit kind
marker and no container name; or a high-restart record with exactly the keys
`pod`, `container`, `issue` (always `"high_restart_count"`) and
`restart_count` (the observed value). -/
theorem c9_issue_shape_amended (pods : List PodInfo) (issue : Payload)
    (hmem : issue ∈ collectIssues pods) :
    (issue.map Prod.fst = ["pod", "status", "conditions"] ∧
      issue.lookup "issue" = none ∧
      ∃ p ∈ pods, p.status ≠ "Running" ∧
        issue.lookup "pod" = some (Value.str p.name) ∧
        issue.lookup "status" = some (Value.str p.status)) ∨
    (issue.map Prod.fst = ["pod", "container", "issue", "restart_count"] ∧
      issue.lookup "issue" = some (Value.str "high_restart_count") ∧
      ∃ p ∈ pods, ∃ c ∈ p.containers, c.restart_count > 5 ∧
        issue.lookup "pod" = some (Value.str p.name) ∧
        issue.lookup "container" = some (Value.str c.name) ∧
        issue.lookup "restart_count" = some (Value.num c.restart_count)) := by
  rw [collectIssues, List.mem_flatten] at hmem
  obtain ⟨l, hl, hissue⟩ := hmem
  rw [List.mem_map] at hl
  obtain ⟨p, hp, rfl⟩ := hl
  rw [podIssues, List.mem_append] at hissue
  rcases hissue with hnr | hhr
  · left
    by_cases hs : p.status != "Running"
    · rw [if_pos hs] at hnr
      simp only [List.mem_singleton] at hnr
      subst hnr
      refine ⟨rfl, rfl, p, hp, by simpa using hs, ?_, ?_⟩ <;> simp [List.lookup]
    · rw [if_neg hs] at hnr
      exact absurd hnr (List.not_mem_nil _)
  · right
    rw [List.mem_filterMap] at hhr
    obtain ⟨c, hc, hcis⟩ := hhr
    by_cases h5 : c.restart_count > 5
    · rw [if_pos h5] at hcis
      obtain rfl := Option.some_injective _ hcis
      refine ⟨rfl, ?_, p, hp, c, hc, h5, ?_, ?_, ?_⟩ <;> simp [List.lookup]
    · rw [if_neg h5] at hcis
      exact absurd hcis (Option.noConfusion)

/-- C9, witness: the amended shape theorem applied to the concrete first issue
of the `web-1` snapshot. -/
theorem c9_issue_shape_witness :
    webIssue0 ∈ collectIssues [webPod] ∧
    ((webIssue0.map Prod.fst = ["pod", "status", "conditions"] ∧
      webIssue0.lookup "issue" = none ∧
      ∃ p ∈ [webPod], p.status ≠ "Running" ∧
        webIssue0.lookup "pod" = some (Value.str p.name) ∧
        webIssue0.lookup "status" = some (Value.str p.status)) ∨
    (webIssue0.map Prod.fst = ["pod", "container", "issue", "restart_count"] ∧
      webIssue0.lookup "issue" = some (Value.str "high_restart_count") ∧
      ∃ p ∈ [webPod], ∃ c ∈ p.containers, c.restart_count > 5 ∧
        webIssue0.lookup "pod" = some (Value.str p.name) ∧
        webIssue0.lookup "container" = some (Value.str c.name) ∧
        webIssue0.lookup "restart_count" = some (Value.num c.restart_count))) :=
  have hmem : webIssue0 ∈ collectIssues [webPod] := List.mem_cons_self _ _
  ⟨hmem, c9_issue_shape_amended [webPod] webIssue0 hmem⟩

/-- Monadic helper: binding a ready `Except.ok` value. -/
theorem exceptOkBind {α β : Type} (a : α) (f : α → Except String β) :
    (do let x ← (Except.ok a : Except String α); f x) = f a := rfl

/-- Indexing succeeds below the length, returning the `getD` value. -/
theorem pyIndex_ok {α : Type} (l : List α) (i : Nat) (d : α) (h : i < l.length) :
    pyIndex l i = .ok (l.getD i d) := by
  unfold pyIndex List.getD
  rw [List.get?_eq_get h]
  simp [List.get?_eq_get h]

/-- A `mapM` whose step never fails is the corresponding `map`. -/
theorem mapM_eq_map_of_ok {α β : Type} (f : α → Except String β) (g : α → β) :
    ∀ l : List α, (∀ a ∈ l, f a = .ok (g a)) → l.mapM f = .ok (l.map g)
  | [], _ => rfl
  | a :: l, h => by
    rw [List.mapM_cons, h a (List.mem_cons_self _ _), List.map_cons,
      mapM_eq_map_of_ok f g l (fun b hb => h b (List.mem_cons_of_mem _ hb))]
    rfl

/-- C10, counterexample.  On a one-hit store result the formatted entry has
exactly the keys `content`, `metadata`, `distance`, `id`: the third field is
the raw vector `distance`, and no `relevance_score` key exists. -/
theorem c10_search_fields_counterexample :
    DocumentService.search_documents
        ⟨[["fixing a pod crashloop"]], [[[("source", Value.str "runbook.md")]]],
         [[Value.num 0]], [["doc_1"]]⟩ =
      .ok [[("content", Value.str "fixing a pod crashloop"),
            ("metadata", Value.dict [("source", Value.str "runbook.md")]),
            ("distance", Value.num 0),
            ("id", Value.str "doc_1")]] ∧
    ([("content", Value.str "fixing a pod crashloop"),
      ("metadata", Value.dict [("source", Value.str "runbook.md")]),
      ("distance", Value.num 0),
      ("id", Value.str "doc_1")] : Payload).map Prod.fst =
      ["content", "metadata", "distance", "id"] ∧
    ([("content", Value.str "fixing a pod crashloop"),
      ("metadata", Value.dict [("source", Value.str "runbook.md")]),
      ("distance", Value.num 0),
      ("id", Value.str "doc_1")] : Payload).lookup "relevance_score" = none :=
  ⟨rfl, rfl, rfl⟩

/-- C10, amended.  For every well-shaped store result (the parallel lists have
the documents' length, as the vector store guarantees), the formatting returns
one ordered entry per document, each carrying exactly the fields `content`,
`metadata`, `distance` and `id` — `distance`, not `relevance_score`; on an
empty result (empty index) it returns an empty list, not an error. -/
theorem c10_search_fields_amended (docs0 : List String) (mds : List Payload)
    (dists : List Value) (ids : List String)
    (h1 : mds.length = docs0.length) (h2 : dists.length = docs0.length)
    (h3 : ids.length = docs0.length) :
    DocumentService.search_documents ⟨[docs0], [mds], [dists], [ids]⟩ =
      .ok (docs0.enum.map fun p =>
        [("content", Value.str p.2), ("metadata", Value.dict (mds.getD p.1 [])),
         ("distance", dists.getD p.1 Value.null), ("id", Value.str (ids.getD p.1 ""))]) ∧
    (docs0 = [] →
      DocumentService.search_documents ⟨[docs0], [mds], [dists], [ids]⟩ = .ok []) ∧
    (∀ entry ∈ (docs0.enum.map fun p =>
        [("content", Value.str p.2), ("metadata", Value.dict (mds.getD p.1 [])),
         ("distance", dists.getD p.1 Value.null), ("id", Value.str (ids.getD p.1 ""))]),
      entry.map Prod.fst = ["content", "metadata", "distance", "id"] ∧
      entry.lookup "relevance_score" = none) := by
  rcases docs0 with _ | ⟨d, ds⟩
  · exact ⟨rfl, fun _ => rfl, fun e he => absurd he (List.not_mem_nil _)⟩
  · refine ⟨?_, fun h => absurd h (by simp), ?_⟩
    · have hstep : DocumentService.search_documents ⟨[d :: ds], [mds], [dists], [ids]⟩
          = (d :: ds).enum.mapM (fun p => do
              let metadatas0 ← pyIndex [mds] 0
              let metadata ← pyIndex metadatas0 p.1
              let distances0 ← pyIndex [dists] 0
              let distance ← pyIndex distances0 p.1
              let ids0 ← pyIndex [ids] 0
              let id ← pyIndex ids0 p.1
              pure [("content", Value.str p.2), ("metadata", Value.dict metadata),
                    ("distance", distance), ("id", Value.str id)]) := rfl
      rw [hstep]
      apply mapM_eq_map_of_ok
      intro p hp
      obtain ⟨i, x⟩ := p
      have hi : i < (d :: ds).length := (List.mem_enum hp).1
      simp only [show pyIndex ([mds] : List (List Payload)) 0 = Except.ok mds from rfl,
        exceptOkBind, pyIndex_ok mds i ([] : Payload) (by rw [h1]; exact hi),
        show pyIndex ([dists] : List (List Value)) 0 = Except.ok dists from rfl,
        pyIndex_ok dists i Value.null (by rw [h2]; exact hi),
        show pyIndex ([ids] : List (List String)) 0 = Except.ok ids from rfl,
        pyIndex_ok ids i "" (by rw [h3]; exact hi)]
      rfl
    · intro entry he
      rw [List.mem_map] at he
      obtain ⟨p, hp, rfl⟩ := he
      exact ⟨rfl, rfl⟩

/-- C10, witness: the amended theorem applied to a concrete one-hit store
result. -/
theorem c10_search_witness :
    ([[("source", Value.str "runbook.md")]] : List Payload).length =
      (["fixing a pod crashloop"] : List String).length ∧
    DocumentService.search_documents
        ⟨[["fixing a pod crashloop"]], [[[("source", Value.str "runbook.md")]]],
         [[Value.num 0]], [["doc_1"]]⟩ =
      .ok ((["fixing a pod crashloop"] : List String).enum.map fun p =>
        [("content", Value.str p.2),
         ("metadata", Value.dict (([[("source", Value.str "runbook.md")]] :
            List Payload).getD p.1 [])),
         ("distance", ([Value.num 0] : List Value).getD p.1 Value.null),
         ("id", Value.str ((["doc_1"] : List String).getD p.1 ""))]) :=
  ⟨rfl,
   (c10_search_fields_amended ["fixing a pod crashloop"]
      [[("source", Value.str "runbook.md")]] [Value.num 0] ["doc_1"]
      rfl rfl rfl).1⟩
